import Mathlib

/-!
Verification of the promotional-code redemption subsystem of the speak
backend (handlers/loginviaemailverify.go, handlers/balance.go,
handlers/auth_utils.go), as a shallow embedding in Lean 4.

Modelling conventions:
- SQL instants are modelled as `Int` (nanoseconds since the epoch; only the
  ordering and the addition of durations matter).
- SQL numeric quantities and Go float64 values are modelled as `ℚ`
  (idealized: decimal literals are exact, no binary rounding, no overflow).
  Go float64 NaN and infinities get their own constructors.
- Database tables are lists of rows inside a `Db` state; a missing table
  yields the Postgres error class 42P01, a duplicate (promocode, user) pair
  on an activation insert yields 23505, mirroring what the store reports.
- Database connectivity failures, and errors caused by concurrent
  transactions that committed in between two statements of this request
  (the lost race), are injected through explicit fault parameters: a fault
  of `some e` makes the corresponding statement report `e` and perform no
  state change.
- The transaction of ActivatePromocode is modelled by running the body on a
  copy of the state; the deferred rollback keeps the base state when the
  body ends without committing and is a no-op after commit.
-/

namespace Speak

/-- Decidable equality for Except, used to evaluate the models on concrete
inputs. -/
instance exceptDecEq {ε α : Type} [DecidableEq ε] [DecidableEq α] :
    DecidableEq (Except ε α) := fun a b =>
  match a, b with
  | .ok x, .ok y =>
      if h : x = y then isTrue (by rw [h]) else isFalse (fun hh => h (Except.ok.inj hh))
  | .error x, .error y =>
      if h : x = y then isTrue (by rw [h]) else isFalse (fun hh => h (Except.error.inj hh))
  | .ok _, .error _ => isFalse (fun hh => Except.noConfusion hh)
  | .error _, .ok _ => isFalse (fun hh => Except.noConfusion hh)

/-- Model of strings.TrimSpace: drop whitespace from both ends. Implemented
by structural recursion over the character list so that it evaluates inside
the kernel. -/
def goTrim (s : String) : String :=
  String.mk (((s.data.dropWhile Char.isWhitespace).reverse.dropWhile Char.isWhitespace).reverse)

/-- Lower-casing as strings.ToLower and strings.EqualFold need it here. -/
def goToLower (s : String) : String :=
  String.mk (s.data.map Char.toLower)

/-- Postgres error classes that the handlers distinguish by `pq.Error.Code`:
23505 unique_violation, 42P01 undefined_table, 42703 undefined_column, and
every other code. -/
inductive PqCode
  | uniqueViolation
  | undefinedTable
  | undefinedColumn
  | otherCode
deriving DecidableEq, Repr

/-- Outcome classes of a database call as the Go handlers see them:
`sql.ErrNoRows`, a `*pq.Error` with a code, or any other error. -/
inductive DbErr
  | noRows
  | pq (code : PqCode)
  | generic
deriving DecidableEq, Repr

/-- An HTTP error response body: status, the `error` field, and whether a
`details` field accompanies it. -/
structure Resp where
  status : Nat
  errMsg : Option String
  details : Bool
deriving DecidableEq, Repr

/-- Row of the current-schema `promocode` table
(id, name, quantity, start_time, end_time, keyword). -/
structure PromoRow where
  id : Int
  name : String
  quantity : ℚ
  startTime : Option Int
  endTime : Option Int
  keyword : String
deriving DecidableEq, Repr

/-- Row of the legacy `promocodes` table (promocode_id resp. id, quantity,
is_active resp. active, keyword). The two legacy column layouts carry the
same logical fields; the 42703-retry in the Go code reads the same data
through the alternate column names. -/
structure LegacyPromoRow where
  id : Int
  quantity : ℚ
  isActive : Bool
  keyword : String
deriving DecidableEq, Repr

/-- Row of the current-schema `promocode_activation` table. -/
structure NewActRow where
  promocodeId : Int
  userId : Int
  enableTime : Int
  quantity : Int
deriving DecidableEq, Repr

/-- Row of the legacy `promocode_activations` table. -/
structure LegacyActRow where
  promocodeId : Int
  userId : Int
  activatedAt : Int
deriving DecidableEq, Repr

/-- The relational store: which tables exist and their rows. The `balance`
table maps a user id to a numeric quantity. -/
structure Db where
  hasPromocodeTable : Bool
  promoRows : List PromoRow
  hasPromocodesTable : Bool
  legacyPromoRows : List LegacyPromoRow
  hasNewActivationTable : Bool
  newActs : List NewActRow
  hasLegacyActivationTable : Bool
  legacyActs : List LegacyActRow
  balances : List (Int × ℚ)
deriving DecidableEq, Repr

/-- The in-memory promocodeRecord struct of the Go handlers. -/
structure PromocodeRecord where
  ID : Int
  Name : String
  Quantity : ℚ
  IsActive : Bool
  StartTime : Option Int
  EndTime : Option Int
deriving DecidableEq, Repr

/-- Model of computePromocodeActive: a nil record is inactive; otherwise the
record is active unless now is strictly before the start time or strictly
after the end time (an absent bound imposes no constraint). -/
def computePromocodeActive (record : Option PromocodeRecord) (now : Int) : Bool :=
  match record with
  | none => false
  | some r =>
    let startViolated : Bool :=
      match r.StartTime with
      | some s => decide (now < s)
      | none => false
    let endViolated : Bool :=
      match r.EndTime with
      | some e => decide (e < now)
      | none => false
    !startViolated && !endViolated

/-- Model of findPromocodeByKeyword: query the current-schema `promocode`
table; on no row or on a schema-mismatch error (42P01/42703) fall back to
the legacy `promocodes` table. A current-schema hit computes the active
flag from the time window; a legacy hit takes the stored active flag and
leaves both bounds absent. A missing legacy table is reported as the
non-noRows error built by fmt.Errorf. -/
def findPromocodeByKeyword (db : Db) (now : Int) (keyword : String) :
    Except DbErr PromocodeRecord :=
  let primary : Except DbErr PromoRow :=
    if !db.hasPromocodeTable then .error (.pq .undefinedTable)
    else match db.promoRows.find? (fun r => decide (r.keyword = keyword)) with
      | some r => .ok r
      | none => .error .noRows
  let legacy : Except DbErr PromocodeRecord :=
    if !db.hasPromocodesTable then .error .generic
    else match db.legacyPromoRows.find? (fun r => decide (r.keyword = keyword)) with
      | some r => .ok ⟨r.id, "", r.quantity, r.isActive, none, none⟩
      | none => .error .noRows
  match primary with
  | .ok r =>
      let record : PromocodeRecord :=
        ⟨r.id, r.name, r.quantity, false, r.startTime, r.endTime⟩
      .ok { record with IsActive := computePromocodeActive (some record) now }
  | .error .noRows => legacy
  | .error (.pq .undefinedTable) => legacy
  | .error (.pq .undefinedColumn) => legacy
  | .error e => .error e

/-- Lookup of the balance row of a user (SELECT quantity FROM balance WHERE
user_id). -/
def balanceLookup (bs : List (Int × ℚ)) (u : Int) : Option ℚ :=
  (bs.find? (fun p => decide (p.1 = u))).map (fun p => p.2)

/-- Effect of INSERT INTO balance (user_id, quantity) VALUES (u, 0)
ON CONFLICT (user_id) DO NOTHING. -/
def ensureBalanceInsert (bs : List (Int × ℚ)) (u : Int) : List (Int × ℚ) :=
  match bs.find? (fun p => decide (p.1 = u)) with
  | some _ => bs
  | none => bs ++ [(u, 0)]

/-- Effect of UPDATE balance SET quantity = quantity + q WHERE user_id = u. -/
def updateBalanceAdd (bs : List (Int × ℚ)) (u : Int) (q : ℚ) : List (Int × ℚ) :=
  bs.map (fun p => if p.1 = u then (p.1, p.2 + q) else p)

/-- Model of ensureBalanceRecord from balance.go: a nil transaction is
rejected with an error; otherwise the idempotent insert-if-absent runs
inside the transaction. The execFault flag models a failure of tx.Exec. -/
def ensureBalanceRecord (tx : Option Db) (userID : Int) (execFault : Bool) :
    Except String Db :=
  match tx with
  | none => .error "transaction is required to ensure balance record"
  | some s =>
      if execFault then .error "exec failed"
      else .ok { s with balances := ensureBalanceInsert s.balances userID }

/-- Fault schedule for one ActivatePromocode request: a `some e` entry makes
the corresponding database statement report error `e` without touching the
state; the Bool entries model plain failures of Begin, Exec, Commit or the
read-back. These stand for connectivity failures and for errors provoked by
concurrently committed transactions (the lost race on the uniqueness
constraint). -/
structure Faults where
  beginFail : Bool
  checkNewFault : Option DbErr
  checkLegacyFault : Option DbErr
  ensureFault : Bool
  updateFault : Bool
  insertNewFault : Option DbErr
  insertLegacyFault : Option DbErr
  commitFail : Bool
  readbackFault : Bool
deriving DecidableEq, Repr

/-- The request with no injected faults. -/
def noFaults : Faults := ⟨false, none, none, false, false, none, none, false, false⟩

/-- State of the transaction when control reaches the deferred rollback:
either still open (commit never ran or failed) or already committed with
the resulting store state. -/
inductive TxEnd
  | stillOpen (s : Db)
  | committed (s : Db)
deriving DecidableEq, Repr

/-- The deferred tx.Rollback() call: discards the transaction work when the
transaction is still open, and is a no-op (its error is ignored) when the
transaction already committed. -/
def deferredRollback (base : Db) : TxEnd → Db
  | .stillOpen _ => base
  | .committed s => s

/-- SELECT 1 FROM promocode_activation WHERE promocode_id = c AND
user_id = u, inside the transaction: ok () means a row was scanned. -/
def activationCheckNew (s : Db) (codeId userId : Int) (fault : Option DbErr) :
    Except DbErr Unit :=
  match fault with
  | some e => .error e
  | none =>
      if !s.hasNewActivationTable then .error (.pq .undefinedTable)
      else if s.newActs.any (fun r => decide (r.promocodeId = codeId) && decide (r.userId = userId)) then .ok ()
      else .error .noRows

/-- SELECT 1 FROM promocode_activations WHERE promocode_id = c AND
user_id = u, inside the transaction. -/
def activationCheckLegacy (s : Db) (codeId userId : Int) (fault : Option DbErr) :
    Except DbErr Unit :=
  match fault with
  | some e => .error e
  | none =>
      if !s.hasLegacyActivationTable then .error (.pq .undefinedTable)
      else if s.legacyActs.any (fun r => decide (r.promocodeId = codeId) && decide (r.userId = userId)) then .ok ()
      else .error .noRows

/-- The prior-redemption check of ActivatePromocode (the primary query with
its legacy fallback on 42P01/42703): ok () means no prior activation was
found and the request may continue; an error carries the response that the
handler returns. -/
def checkPriorActivation (s : Db) (codeId userId : Int)
    (fNew fLegacy : Option DbErr) : Except Resp Unit :=
  match activationCheckNew s codeId userId fNew with
  | .ok _ => .error ⟨400, some "Promocode already activated by this user", false⟩
  | .error .noRows => .ok ()
  | .error (.pq c) =>
      if c = .undefinedTable || c = .undefinedColumn then
        match activationCheckLegacy s codeId userId fLegacy with
        | .error .noRows => .ok ()
        | .ok _ => .error ⟨400, some "Promocode already activated by this user", false⟩
        | .error _ => .error ⟨500, some "Failed to check legacy promocode activation", true⟩
      else .error ⟨500, some "Failed to check promocode activation", true⟩
  | .error .generic => .error ⟨500, some "Failed to check promocode activation", true⟩

/-- INSERT INTO promocode_activation (promocode_id, user_id, enable_time,
quantity), inside the transaction: a duplicate (promocode, user) pair is a
unique-constraint violation, a missing table is 42P01. -/
def insertNewActivation (s : Db) (codeId userId now qty : Int)
    (fault : Option DbErr) : Except DbErr Db :=
  match fault with
  | some e => .error e
  | none =>
      if !s.hasNewActivationTable then .error (.pq .undefinedTable)
      else if s.newActs.any (fun r => decide (r.promocodeId = codeId) && decide (r.userId = userId)) then
        .error (.pq .uniqueViolation)
      else .ok { s with newActs := s.newActs ++ [⟨codeId, userId, now, qty⟩] }

/-- INSERT INTO promocode_activations (promocode_id, user_id, activated_at),
inside the transaction. -/
def insertLegacyActivation (s : Db) (codeId userId now : Int)
    (fault : Option DbErr) : Except DbErr Db :=
  match fault with
  | some e => .error e
  | none =>
      if !s.hasLegacyActivationTable then .error (.pq .undefinedTable)
      else if s.legacyActs.any (fun r => decide (r.promocodeId = codeId) && decide (r.userId = userId)) then
        .error (.pq .uniqueViolation)
      else .ok { s with legacyActs := s.legacyActs ++ [⟨codeId, userId, now⟩] }

/-- The Recording step of ActivatePromocode (source lines 520 to 554): the
primary insert, whose 23505 is mapped to the already-activated response and
whose 42703/42P01 diverts to the legacy fallback insert; any failure of the
fallback insert, whatever its error code, yields the generic 500 response. -/
def recordActivation (s : Db) (codeId userId now qty : Int)
    (fNew fLegacy : Option DbErr) : Except Resp Db :=
  match insertNewActivation s codeId userId now qty fNew with
  | .ok s2 => .ok s2
  | .error (.pq c) =>
      match c with
      | .undefinedColumn | .undefinedTable =>
          match insertLegacyActivation s codeId userId now fLegacy with
          | .ok s2 => .ok s2
          | .error _ => .error ⟨500, some "Failed to record promocode activation", true⟩
      | .uniqueViolation => .error ⟨400, some "Promocode already activated by this user", false⟩
      | .otherCode => .error ⟨500, some "Failed to record promocode activation", true⟩
  | .error _ => .error ⟨500, some "Failed to record promocode activation", true⟩

/-- Rounding of a float64 as Go math.Round does it: to the nearest integer,
halves away from zero. -/
def goRound (q : ℚ) : Int :=
  if q ≥ 0 then ⌊q + 1/2⌋ else ⌈q - 1/2⌉

/-- The transaction body of ActivatePromocode, from the prior-redemption
check through the activation insert: check, ensure the balance row, credit
the quantity, record the activation. An error carries the handler response;
success carries the transaction state that Commit would publish. -/
def activateTx (s0 : Db) (now userId : Int) (record : PromocodeRecord)
    (f : Faults) : Except Resp Db :=
  match checkPriorActivation s0 record.ID userId f.checkNewFault f.checkLegacyFault with
  | .error r => .error r
  | .ok _ =>
    match ensureBalanceRecord (some s0) userId f.ensureFault with
    | .error _ => .error ⟨500, some "Failed to prepare balance record", true⟩
    | .ok s1 =>
      if f.updateFault then .error ⟨500, some "Failed to update balance", true⟩
      else
        let s2 : Db := { s1 with balances := updateBalanceAdd s1.balances userId record.Quantity }
        recordActivation s2 record.ID userId now (goRound record.Quantity) f.insertNewFault f.insertLegacyFault

/-- Outcome of one ActivatePromocode request: the success body with the new
balance, or an error response. -/
inductive ActivateOut
  | ok (balance : ℚ)
  | err (r : Resp)
deriving DecidableEq, Repr

/-- Model of ActivatePromocode (after authentication and body parsing):
validate the keyword, resolve the code, check the window flag, run the
transaction with its deferred rollback, commit, and read the balance back
from the committed store. Returns the response and the final store state. -/
def ActivatePromocode (db : Db) (now userId : Int) (rawKeyword : String)
    (f : Faults) : ActivateOut × Db :=
  let keyword := goTrim rawKeyword
  if keyword = "" then (.err ⟨400, some "Promocode keyword is required", false⟩, db)
  else
    match findPromocodeByKeyword db now keyword with
    | .error .noRows => (.err ⟨404, some "Promocode not found", false⟩, db)
    | .error _ => (.err ⟨500, some "Failed to fetch promocode", true⟩, db)
    | .ok record =>
      if !record.IsActive then (.err ⟨400, some "Promocode is not active", false⟩, db)
      else if f.beginFail then (.err ⟨500, some "Failed to start transaction", true⟩, db)
      else
        let body : ActivateOut × TxEnd :=
          match activateTx db now userId record f with
          | .error r => (.err r, .stillOpen db)
          | .ok s3 =>
            if f.commitFail then (.err ⟨500, some "Failed to complete activation", true⟩, .stillOpen s3)
            else if f.readbackFault then (.err ⟨500, some "Failed to fetch updated balance", true⟩, .committed s3)
            else
              match balanceLookup s3.balances userId with
              | none => (.err ⟨500, some "Failed to fetch updated balance", true⟩, .committed s3)
              | some newBalance => (.ok newBalance, .committed s3)
        (body.1, deferredRollback db body.2)

/-- Value of a Go float64 in the model: a finite rational, NaN, or an
infinity. -/
inductive ExtQ
  | num (q : ℚ)
  | nan
  | posInf
  | negInf
deriving DecidableEq, Repr

/-- Go comparison value <= 0 on a float64: false on NaN and on positive
infinity, true on negative infinity. -/
def extLeZero : ExtQ → Bool
  | .num q => decide (q ≤ 0)
  | .nan => false
  | .posInf => false
  | .negInf => true

/-- Go math.IsNaN. -/
def extIsNaN : ExtQ → Bool
  | .nan => true
  | _ => false

/-- Go math.IsInf with sign 0. -/
def extIsInf : ExtQ → Bool
  | .posInf => true
  | .negInf => true
  | _ => false

/-- Splitting of a character list at every occurrence of a separator. -/
def splitChar (sep : Char) : List Char → List (List Char)
  | [] => [[]]
  | c :: rest =>
    match splitChar sep rest with
    | [] => [[]]
    | g :: gs => if c = sep then [] :: g :: gs else (c :: g) :: gs

/-- Value of a nonempty all-digit character group, none otherwise. -/
def digitsToNat? (cs : List Char) : Option Nat :=
  let rec go : List Char → Nat → Option Nat
    | [], acc => some acc
    | c :: rest, acc =>
        if c.isDigit then go rest (acc * 10 + (c.toNat - 48)) else none
  match cs with
  | [] => none
  | _ => go cs 0

/-- Decimal mantissa of a float literal: digits with an optional fractional
part, where one of the two digit groups may be empty. -/
def parseDecMantissa (cs : List Char) : Option ℚ :=
  match splitChar '.' cs with
  | [ip] => (digitsToNat? ip).map (fun n => (n : ℚ))
  | [ip, fp] =>
      if ip.isEmpty && fp.isEmpty then none
      else if (ip.isEmpty || (digitsToNat? ip).isSome) && (fp.isEmpty || (digitsToNat? fp).isSome) then
        some (((digitsToNat? ip).getD 0 : ℚ) + ((digitsToNat? fp).getD 0 : ℚ) / (10 : ℚ) ^ fp.length)
      else none
  | _ => none

/-- Exponent part of a float literal, with an optional sign. -/
def parseExponent (cs : List Char) : Option Int :=
  match cs with
  | '-' :: rest => (digitsToNat? rest).map (fun n => -(n : Int))
  | '+' :: rest => (digitsToNat? rest).map (fun n => (n : Int))
  | _ => (digitsToNat? cs).map (fun n => (n : Int))

/-- Model of strconv.ParseFloat with bit size 64, idealized over ℚ: the
case-insensitive special words give NaN and the infinities; otherwise an
optional sign, a decimal mantissa and an optional exponent are accepted.
Decimal values are exact (no binary rounding) and never overflow. -/
def parseGoFloat (s : String) : Option ExtQ :=
  let t := goToLower s
  if t = "nan" then some .nan
  else if t = "inf" || t = "+inf" || t = "infinity" || t = "+infinity" then some .posInf
  else if t = "-inf" || t = "-infinity" then some .negInf
  else
    let signAndBody : ℚ × List Char :=
      match t.data with
      | '-' :: rest => (-1, rest)
      | '+' :: rest => (1, rest)
      | cs => (1, cs)
    match splitChar 'e' signAndBody.2 with
    | [m] => (parseDecMantissa m).map (fun q => .num (signAndBody.1 * q))
    | [m, ex] =>
        match parseDecMantissa m, parseExponent ex with
        | some q, some e => some (.num (signAndBody.1 * q * (10 : ℚ) ^ e))
        | _, _ => none
    | _ => none

/-- Raw content of the quantity field of the createCode request body, as
json.RawMessage delivers it: absent, a bare JSON token (a number or the
null word), or a JSON string whose unquoted content is carried. -/
inductive RawQuantity
  | absent
  | jsonNumber (text : String)
  | jsonString (inner : String)
deriving DecidableEq, Repr

/-- Case-insensitive string comparison, as strings.EqualFold behaves on the
inputs of this subsystem. -/
def equalFold (a b : String) : Bool := decide (goToLower a = goToLower b)

/-- Model of parseFlexibleQuantity: an absent, empty or null raw value is
rejected as required; a quoted value is unquoted and trimmed first; the
remaining text goes through the float parser. -/
def parseFlexibleQuantity (raw : RawQuantity) : Except String ExtQ :=
  match raw with
  | .absent => .error "quantity is required"
  | .jsonNumber text =>
      let trimmed := goTrim text
      if trimmed = "" || equalFold trimmed "null" then .error "quantity is required"
      else match parseGoFloat trimmed with
        | some v => .ok v
        | none => .error "invalid quantity"
  | .jsonString inner =>
      let trimmed := goTrim inner
      if trimmed = "" then .error "quantity is required"
      else match parseGoFloat trimmed with
        | some v => .ok v
        | none => .error "invalid quantity"

/-- The quantity checks of AddPromocode after parsing (source lines 186 to
204): reject values <= 0, reject NaN and infinities, reject values further
than 1e-9 from their rounding, and return the rounded int64. -/
def validateQuantityValue (quantityValue : ExtQ) : Except Resp Int :=
  if extLeZero quantityValue then
    .error ⟨400, some "Quantity must be greater than zero", false⟩
  else if extIsNaN quantityValue || extIsInf quantityValue then
    .error ⟨400, some "Quantity must be a finite number", false⟩
  else
    match quantityValue with
    | .num q =>
        let roundedQuantity := goRound q
        if |q - (roundedQuantity : ℚ)| > 1 / 1000000000 then
          .error ⟨400, some "Quantity must be an integer value", false⟩
        else .ok roundedQuantity
    | _ => .error ⟨400, some "Quantity must be a finite number", false⟩

/-- The quantity pipeline of AddPromocode: parse errors become the 400
response with details, then the value checks run. -/
def addPromocodeQuantity (raw : RawQuantity) : Except Resp Int :=
  match parseFlexibleQuantity raw with
  | .error _ => .error ⟨400, some "Invalid quantity", true⟩
  | .ok v => validateQuantityValue v

/-- A start or end time field of the createCode request: absent (a nil
pointer or a whitespace-only string), a string that parses to the instant
t, or a string that no accepted layout parses. -/
inductive TimeField
  | absent
  | given (t : Int)
  | malformed
deriving DecidableEq, Repr

/-- Thirty days as a Go duration in nanoseconds. -/
def thirtyDays : Int := 30 * 24 * 60 * 60 * 1000000000

/-- Model of resolvePromocodeTimes: an absent start defaults to now, an
absent end defaults to start plus thirty days, and a resolved end that is
not strictly after the resolved start is rejected. -/
def resolvePromocodeTimes (start endF : TimeField) (now : Int) :
    Except String (Int × Int) :=
  match start with
  | .malformed => .error "unsupported time format"
  | _ =>
    let startTime : Int := match start with
      | .given t => t
      | _ => now
    match endF with
    | .malformed => .error "unsupported time format"
    | _ =>
      let endTime : Int := match endF with
        | .given t => t
        | _ => startTime + thirtyDays
      if !(decide (startTime < endTime)) then .error "end time must be after start time"
      else .ok (startTime, endTime)

/-- The keyword alphabet of generatePromocodeKeyword. -/
def promocodeCharset : List Char := "ABCDEFGHIJKLMNOPQRSTUVWXYZ0123456789".data

/-- Model of generatePromocodeKeyword: a non-positive length is rejected, a
failing random source is an error, and otherwise each of the length random
bytes selects one charset character by reduction modulo the charset size. -/
def generatePromocodeKeyword (length : Int) (randFails : Bool)
    (randomByte : Nat → Fin 256) : Except String String :=
  if length ≤ 0 then .error "length must be positive"
  else if randFails then .error "random source failed"
  else .ok (String.mk ((List.range length.toNat).map
    (fun i => promocodeCharset.getD ((randomByte i).val % promocodeCharset.length) 'A')))

/-- The createCode request body after JSON decoding (metadata elided: the
handler never reads it). -/
structure AddInput where
  Name : String
  Keyword : String
  Quantity : RawQuantity
  IsActive : Option Bool
  StartTime : TimeField
  EndTime : TimeField
deriving Repr

/-- Environment of one AddPromocode request: the outcome of each insert
statement (none is success) and whether the random source fails. -/
structure AddEnv where
  execInsertNew : Option DbErr
  execInsertLegacy : Option DbErr
  execInsertLegacyRetry : Option DbErr
  genFails : Bool
deriving DecidableEq, Repr

/-- Outcome of one AddPromocode request: the success body or an error
response. -/
inductive AddOut
  | ok (keyword : String) (active : Bool) (quantity : Int)
      (startTime endTime : Option Int)
  | err (r : Resp)
deriving DecidableEq, Repr

/-- Model of AddPromocode (after authentication, admin check and body
parsing): validate the name and the quantity, resolve or generate the
keyword, resolve the time window, insert into the current-schema table, and
on a schema mismatch fall back to the legacy insert with its created_at
retry. Since resolvePromocodeTimes always produces both bounds, the
current-schema insert is always attempted first. -/
def AddPromocode (req : AddInput) (now : Int) (randomByte : Nat → Fin 256)
    (env : AddEnv) : AddOut :=
  let name := goTrim req.Name
  if name = "" then .err ⟨400, some "Name is required", false⟩
  else
    match addPromocodeQuantity req.Quantity with
    | .error r => .err r
    | .ok quantityInt =>
      let keyword0 := goTrim req.Keyword
      let keywordRes : Except Resp String :=
        if keyword0 = "" || equalFold keyword0 "none" then
          match generatePromocodeKeyword 8 env.genFails randomByte with
          | .error _ => .error ⟨500, some "Failed to generate promocode keyword", true⟩
          | .ok k => .ok k
        else .ok keyword0
      match keywordRes with
      | .error r => .err r
      | .ok keyword =>
        let isActive := req.IsActive.getD true
        match resolvePromocodeTimes req.StartTime req.EndTime now with
        | .error _ => .err ⟨400, some "Invalid start or end time", true⟩
        | .ok (startTime, endTime) =>
          match env.execInsertNew with
          | none =>
              .ok keyword
                (computePromocodeActive (some ⟨0, "", 0, false, some startTime, some endTime⟩) now)
                quantityInt (some startTime) (some endTime)
          | some e =>
            match e with
            | .pq .uniqueViolation => .err ⟨409, some "Promocode keyword already exists", false⟩
            | .pq .undefinedTable | .pq .undefinedColumn =>
              match env.execInsertLegacy with
              | none => .ok keyword isActive quantityInt (some startTime) (some endTime)
              | some e2 =>
                match e2 with
                | .pq .uniqueViolation => .err ⟨409, some "Promocode keyword already exists", false⟩
                | .pq .undefinedColumn =>
                    match env.execInsertLegacyRetry with
                    | none => .ok keyword isActive quantityInt (some startTime) (some endTime)
                    | some _ => .err ⟨500, some "Failed to create promocode", true⟩
                | _ => .err ⟨500, some "Failed to create promocode", true⟩
            | _ => .err ⟨500, some "Failed to create promocode", true⟩

/-- The distinct failure causes that unauthorizedResponse distinguishes. -/
inductive AuthErr
  | missingToken
  | signatureInvalid
  | tokenExpired
  | otherAuth
deriving DecidableEq, Repr

/-- Model of unauthorizedResponse from auth_utils.go: status 401, a message
chosen by the failure cause, and the underlying error always attached as
details. -/
def unauthorizedResponse (e : AuthErr) : Resp :=
  ⟨401, some (match e with
    | .missingToken => "Missing authorization token"
    | .signatureInvalid => "Invalid token signature"
    | .tokenExpired => "Token expired"
    | .otherAuth => "Unauthorized"), true⟩

/-- The fixed vocabulary of error messages that the modelled handlers emit. -/
def errorVocabulary : List String :=
  ["Promocode keyword is required", "Promocode not found",
   "Failed to fetch promocode", "Promocode is not active",
   "Failed to start transaction", "Promocode already activated by this user",
   "Failed to check legacy promocode activation",
   "Failed to check promocode activation", "Failed to prepare balance record",
   "Failed to update balance", "Failed to record promocode activation",
   "Failed to complete activation", "Failed to fetch updated balance",
   "Name is required", "Invalid quantity", "Quantity must be greater than zero",
   "Quantity must be a finite number", "Quantity must be an integer value",
   "Failed to generate promocode keyword", "Invalid start or end time",
   "Promocode keyword already exists", "Failed to create promocode",
   "Missing authorization token", "Invalid token signature", "Token expired",
   "Unauthorized"]

/-- A current-schema promocode row used by the concrete runs. -/
def welcomeRow : PromoRow := ⟨1, "Welcome", 100, none, none, "WELCOME"⟩

/-- Store for the lost-race run: the current-schema promocode table exists,
the current-schema activation table does not, the legacy activation table
does. -/
def raceDb : Db := ⟨true, [welcomeRow], false, [], false, [], true, [], []⟩

/-- Faults for the lost-race run: a concurrent request committed the legacy
activation row first, so the fallback insert reports a unique violation. -/
def raceFaults : Faults :=
  ⟨false, none, none, false, false, none, some (.pq .uniqueViolation), false, false⟩

/-- Store for the successful-redemption runs: both activation tables exist
and user 42 starts with balance 7. -/
def freshDb : Db := ⟨true, [welcomeRow], false, [], true, [], true, [], [(42, 7)]⟩

/-- The store that the successful redemption of WELCOME by user 42 commits. -/
def freshDbAfter : Db :=
  ⟨true, [welcomeRow], false, [], true, [⟨1, 42, 0, 100⟩], true, [], [(42, 107)]⟩

/-- Faults that make the balance-ensure statement fail inside the
transaction. -/
def ensureFaults : Faults := ⟨false, none, none, true, false, none, none, false, false⟩

/-- Store whose only match for OLD sits in the legacy promocodes table with
the stored active flag false and no time bounds. -/
def legacyOnlyDb : Db := ⟨true, [], true, [⟨7, 50, false, "OLD"⟩], true, [], true, [], []⟩

/-- Fully migrated store: the current-schema tables exist, the legacy
promocodes table does not, and no code matches. -/
def migratedDb : Db := ⟨true, [], false, [], true, [], true, [], []⟩

/-- Store in which both promocode tables exist and no code matches. -/
def legacyPresentDb : Db := ⟨true, [], true, [], true, [], true, [], []⟩

/-- C1 counterexample: in a store whose current-schema activation table is
absent, a unique-constraint violation on the legacy-schema fallback insert
(the lost race) is answered with the generic 500 response, not with the 400
already-activated response that the claim requires on every insert path. -/
theorem C1_counterexample :
    ActivatePromocode raceDb 0 42 "WELCOME" raceFaults =
      (.err ⟨500, some "Failed to record promocode activation", true⟩, raceDb) ∧
    (ActivatePromocode raceDb 0 42 "WELCOME" raceFaults).1 ≠
      .err ⟨400, some "Promocode already activated by this user", false⟩ := by
  constructor
  · decide
  · decide

/-- C1 amended: a unique-constraint violation reported by the store on the
primary-schema activation insert is reinterpreted as the already-activated
400 response, whatever the legacy fault; on the legacy-schema fallback
insert (reached on 42P01 or 42703), every failure, including a 23505
unique-constraint violation, is reported as the generic 500 response. -/
theorem C1_uniqueViolationMapping :
    (∀ (s : Db) (codeId userId now qty : Int) (fLegacy : Option DbErr),
      recordActivation s codeId userId now qty (some (.pq .uniqueViolation)) fLegacy =
        .error ⟨400, some "Promocode already activated by this user", false⟩)
    ∧ (∀ (s : Db) (codeId userId now qty : Int) (e : DbErr),
      recordActivation s codeId userId now qty (some (.pq .undefinedTable)) (some e) =
        .error ⟨500, some "Failed to record promocode activation", true⟩)
    ∧ (∀ (s : Db) (codeId userId now qty : Int) (e : DbErr),
      recordActivation s codeId userId now qty (some (.pq .undefinedColumn)) (some e) =
        .error ⟨500, some "Failed to record promocode activation", true⟩) := by
  refine ⟨fun s c u n q fL => rfl, fun s c u n q e => rfl, fun s c u n q e => rfl⟩

/-- C8: resolvePromocodeTimes defaults an omitted start time to now,
defaults an omitted end time to the resolved start plus thirty days, and
fails with the validation error exactly when the resolved end is not
strictly after the resolved start. -/
theorem C8_timeResolution :
    (∀ now : Int, resolvePromocodeTimes .absent .absent now = .ok (now, now + thirtyDays))
    ∧ (∀ now s : Int, resolvePromocodeTimes (.given s) .absent now = .ok (s, s + thirtyDays))
    ∧ (∀ now e : Int, now < e →
        resolvePromocodeTimes .absent (.given e) now = .ok (now, e))
    ∧ (∀ now s e : Int, e ≤ s →
        resolvePromocodeTimes (.given s) (.given e) now =
          .error "end time must be after start time")
    ∧ (∀ now s e : Int, s < e →
        resolvePromocodeTimes (.given s) (.given e) now = .ok (s, e)) := by
  refine ⟨?_, ?_, ?_, ?_, ?_⟩
  · intro now
    simp [resolvePromocodeTimes, thirtyDays]
  · intro now s
    simp [resolvePromocodeTimes, thirtyDays]
  · intro now e h
    simp [resolvePromocodeTimes, h]
  · intro now s e h
    simp [resolvePromocodeTimes, Int.not_lt.mpr h]
  · intro now s e h
    simp [resolvePromocodeTimes, h]

/-- C8 witness: the defaults and the rejection at a concrete input. -/
theorem C8_timeResolution_witness :
    resolvePromocodeTimes .absent .absent 0 = .ok (0, 0 + thirtyDays) ∧
    resolvePromocodeTimes (.given 5) (.given 5) 0 =
      .error "end time must be after start time" := by
  exact ⟨C8_timeResolution.1 0, C8_timeResolution.2.2.2.1 0 5 5 (le_refl 5)⟩

/-- C10: ensureBalanceRecord returns an error, rather than panicking, when
called with a nil transaction, and with a live transaction whose balance
row already exists the do-nothing-on-conflict insert succeeds and leaves
the state, hence that row and its quantity, unchanged. -/
theorem C10_ensureBalanceRecord :
    (∀ (userID : Int) (execFault : Bool),
      ensureBalanceRecord none userID execFault =
        .error "transaction is required to ensure balance record")
    ∧ (∀ (s : Db) (userID : Int) (b : ℚ),
      balanceLookup s.balances userID = some b →
      ensureBalanceRecord (some s) userID false = .ok s) := by
  constructor
  · intro u f
    rfl
  · intro s u b h
    unfold balanceLookup at h
    simp only [ensureBalanceRecord, ensureBalanceInsert]
    cases hf : s.balances.find? (fun p => decide (p.1 = u)) with
    | none => rw [hf] at h; simp at h
    | some p => rfl

/-- C10 witness: the nil-transaction error and the row-preserving success at
a concrete store. -/
theorem C10_ensureBalanceRecord_witness :
    ensureBalanceRecord none 42 false =
      .error "transaction is required to ensure balance record" ∧
    ensureBalanceRecord (some freshDb) 42 false = .ok freshDb := by
  exact ⟨C10_ensureBalanceRecord.1 42 false,
    C10_ensureBalanceRecord.2 freshDb 42 7 (by decide)⟩

/-- C4 counterexample: the keyword OLD resolves through the legacy schema
to a record with no time bounds whose active flag is false, although the
claimed window criterion (no bounds, hence always active) declares it
active: the resolved activity does not follow the window on the legacy
path. -/
theorem C4_counterexample :
    findPromocodeByKeyword legacyOnlyDb 0 "OLD" = .ok ⟨7, "", 50, false, none, none⟩ ∧
    computePromocodeActive (some ⟨7, "", 50, false, none, none⟩) 0 = true := by
  exact ⟨by decide, by decide⟩

/-- C4 amended: computePromocodeActive is true exactly when now lies within
the inclusive window, an absent bound being unbounded on its side, and a
code resolved from the current schema carries exactly that flag; a code
resolved from the legacy schema instead carries the stored is_active column
with both bounds absent. -/
theorem C4_activeWindow :
    (∀ (r : PromocodeRecord) (now : Int),
      computePromocodeActive (some r) now = true ↔
        ((∀ s, r.StartTime = some s → s ≤ now) ∧ (∀ e, r.EndTime = some e → now ≤ e)))
    ∧ (∀ (db : Db) (now : Int) (kw : String) (row : PromoRow),
      db.hasPromocodeTable = true →
      db.promoRows.find? (fun r => decide (r.keyword = kw)) = some row →
      findPromocodeByKeyword db now kw =
        .ok ⟨row.id, row.name, row.quantity,
             computePromocodeActive
               (some ⟨row.id, row.name, row.quantity, false, row.startTime, row.endTime⟩) now,
             row.startTime, row.endTime⟩)
    ∧ (∀ (db : Db) (now : Int) (kw : String) (lrow : LegacyPromoRow),
      db.hasPromocodeTable = true →
      db.promoRows.find? (fun r => decide (r.keyword = kw)) = none →
      db.hasPromocodesTable = true →
      db.legacyPromoRows.find? (fun r => decide (r.keyword = kw)) = some lrow →
      findPromocodeByKeyword db now kw =
        .ok ⟨lrow.id, "", lrow.quantity, lrow.isActive, none, none⟩) := by
  refine ⟨?_, ?_, ?_⟩
  · intro r now
    unfold computePromocodeActive
    cases hs : r.StartTime <;> cases he : r.EndTime <;>
      simp [hs, he, Int.not_lt]
  · intro db now kw row hTable hFind
    simp only [findPromocodeByKeyword, hTable, hFind]
    rfl
  · intro db now kw lrow hTable hNew hLegacyTable hLegacy
    simp only [findPromocodeByKeyword, hTable, hNew, hLegacyTable, hLegacy]
    rfl

/-- C4 witness: the window flag on a current-schema hit and the stored flag
on a legacy hit at concrete stores. -/
theorem C4_activeWindow_witness :
    findPromocodeByKeyword freshDb 0 "WELCOME" =
      .ok ⟨welcomeRow.id, welcomeRow.name, welcomeRow.quantity,
           computePromocodeActive
             (some ⟨welcomeRow.id, welcomeRow.name, welcomeRow.quantity, false,
                    welcomeRow.startTime, welcomeRow.endTime⟩) 0,
           welcomeRow.startTime, welcomeRow.endTime⟩ ∧
    findPromocodeByKeyword legacyOnlyDb 5 "OLD" = .ok ⟨7, "", 50, false, none, none⟩ := by
  constructor
  · exact C4_activeWindow.2.1 freshDb 0 "WELCOME" welcomeRow rfl (by decide)
  · exact C4_activeWindow.2.2 legacyOnlyDb 5 "OLD" ⟨7, 50, false, "OLD"⟩ rfl (by decide) rfl
      (by decide)

/-- Absence of a keyword in both promocode tables surfaces as the noRows
error whenever the legacy table exists. -/
theorem findPromocodeByKeyword_noRows (db : Db) (now : Int) (kw : String)
    (hLegacyTable : db.hasPromocodesTable = true)
    (hNew : db.promoRows.find? (fun r => decide (r.keyword = kw)) = none)
    (hLegacy : db.legacyPromoRows.find? (fun r => decide (r.keyword = kw)) = none) :
    findPromocodeByKeyword db now kw = .error .noRows := by
  simp only [findPromocodeByKeyword, hLegacyTable, hNew, hLegacy]
  cases hT : db.hasPromocodeTable <;> simp

/-- C5 counterexample: in a fully migrated store (legacy promocodes table
absent) an unknown keyword is answered with the 500 fetch-failure response,
not with the 404 not-found response, although no matching code exists in
either schema. -/
theorem C5_counterexample :
    ActivatePromocode migratedDb 0 42 "X" noFaults =
      (.err ⟨500, some "Failed to fetch promocode", true⟩, migratedDb) ∧
    (ActivatePromocode migratedDb 0 42 "X" noFaults).1 ≠
      .err ⟨404, some "Promocode not found", false⟩ := by
  exact ⟨by decide, by decide⟩

/-- C5 amended: whenever the legacy promocodes table exists and the keyword
matches no code in either schema, findPromocodeByKeyword reports noRows and
the redeem endpoint answers 404 Promocode not found; when the legacy table
is absent, the same absence surfaces as the internal 500 response instead. -/
theorem C5_notFoundMapping :
    (∀ (db : Db) (now : Int) (kw : String),
      db.hasPromocodesTable = true →
      db.promoRows.find? (fun r => decide (r.keyword = kw)) = none →
      db.legacyPromoRows.find? (fun r => decide (r.keyword = kw)) = none →
      findPromocodeByKeyword db now kw = .error .noRows)
    ∧ (∀ (db : Db) (now userId : Int) (kw : String) (f : Faults),
      goTrim kw = kw → ¬(kw = "") →
      db.hasPromocodesTable = true →
      db.promoRows.find? (fun r => decide (r.keyword = kw)) = none →
      db.legacyPromoRows.find? (fun r => decide (r.keyword = kw)) = none →
      ActivatePromocode db now userId kw f =
        (.err ⟨404, some "Promocode not found", false⟩, db)) := by
  constructor
  · intro db now kw hLT hNew hLegacy
    exact findPromocodeByKeyword_noRows db now kw hLT hNew hLegacy
  · intro db now userId kw f hTrim hkw hLT hNew hLegacy
    have hfind := findPromocodeByKeyword_noRows db now kw hLT hNew hLegacy
    simp only [ActivatePromocode, hTrim, hkw, hfind, if_false]

/-- C5 witness: the 404 answer at a concrete store in which both tables
exist and the keyword matches nothing. -/
theorem C5_notFoundMapping_witness :
    ActivatePromocode legacyPresentDb 0 42 "X" noFaults =
      (.err ⟨404, some "Promocode not found", false⟩, legacyPresentDb) := by
  exact C5_notFoundMapping.2 legacyPresentDb 0 42 "X" noFaults (by decide) (by decide) rfl
    (by decide) (by decide)

unseal Rat.add Rat.mul Rat.inv Rat.sub in
/-- C6: the quantity pipeline accepts the numeric string 10 as the number
10; rejects 10.5 as non-integral; rejects 0, every non-positive value, NaN
and the infinities; and rejects every positive value lying further than
1e-9 from every integer, all with 400 validation responses. -/
theorem C6_quantityValidation :
    addPromocodeQuantity (.jsonString "10") = .ok 10
    ∧ addPromocodeQuantity (.jsonNumber "10.5") =
        .error ⟨400, some "Quantity must be an integer value", false⟩
    ∧ addPromocodeQuantity (.jsonNumber "0") =
        .error ⟨400, some "Quantity must be greater than zero", false⟩
    ∧ (∀ q : ℚ, q ≤ 0 → validateQuantityValue (.num q) =
        .error ⟨400, some "Quantity must be greater than zero", false⟩)
    ∧ validateQuantityValue .nan =
        .error ⟨400, some "Quantity must be a finite number", false⟩
    ∧ validateQuantityValue .posInf =
        .error ⟨400, some "Quantity must be a finite number", false⟩
    ∧ validateQuantityValue .negInf =
        .error ⟨400, some "Quantity must be greater than zero", false⟩
    ∧ addPromocodeQuantity (.jsonString "NaN") =
        .error ⟨400, some "Quantity must be a finite number", false⟩
    ∧ addPromocodeQuantity (.jsonString "Inf") =
        .error ⟨400, some "Quantity must be a finite number", false⟩
    ∧ (∀ q : ℚ, 0 < q → (∀ n : ℤ, 1 / 1000000000 < |q - (n : ℚ)|) →
        validateQuantityValue (.num q) =
          .error ⟨400, some "Quantity must be an integer value", false⟩) := by
  refine ⟨?_, ?_, ?_, ?_, ?_, ?_, ?_, ?_, ?_, ?_⟩
  · decide
  · decide
  · decide
  · intro q h
    simp [validateQuantityValue, extLeZero, h]
  · rfl
  · rfl
  · rfl
  · decide
  · decide
  · intro q hq hn
    have h1 : ¬(q ≤ 0) := not_le.mpr hq
    have h2 : 1 / 1000000000 < |q - ((goRound q : Int) : ℚ)| := hn (goRound q)
    rw [one_div] at h2
    simp [validateQuantityValue, extLeZero, extIsNaN, extIsInf, h1, h2]

/-- Every charset pick by reduction modulo the charset size lands inside
the charset. -/
theorem promocodeCharset_getD_mem (n : Nat) :
    promocodeCharset.getD (n % promocodeCharset.length) 'A' ∈ promocodeCharset := by
  have hlen : promocodeCharset.length = 36 := by decide
  have h : n % promocodeCharset.length < promocodeCharset.length := by
    rw [hlen]
    exact Nat.mod_lt _ (by omega)
  rw [List.getD_eq_getElem?_getD, List.getElem?_eq_getElem h]
  exact List.getElem_mem h

/-- C7: when the trimmed keyword of createCode is empty or fold-equal to
the word none, a fresh keyword of exactly eight characters from the
uppercase-alphanumeric charset is generated and used; a unique-constraint
violation on the insert is answered with the 409 conflict response rather
than retried. -/
theorem C7_keywordGeneration :
    (∀ randomByte : Nat → Fin 256, ∃ s,
      generatePromocodeKeyword 8 false randomByte = .ok s ∧
      s.length = 8 ∧ ∀ c ∈ s.data, c ∈ promocodeCharset)
    ∧ (∀ (req : AddInput) (now : Int) (randomByte : Nat → Fin 256) (env : AddEnv)
        (qn st et : Int),
      (goTrim req.Keyword = "" ∨ equalFold (goTrim req.Keyword) "none" = true) →
      ¬(goTrim req.Name = "") →
      addPromocodeQuantity req.Quantity = .ok qn →
      resolvePromocodeTimes req.StartTime req.EndTime now = .ok (st, et) →
      env.genFails = false →
      env.execInsertNew = some (.pq .uniqueViolation) →
      AddPromocode req now randomByte env =
        .err ⟨409, some "Promocode keyword already exists", false⟩)
    ∧ (∀ (req : AddInput) (now : Int) (randomByte : Nat → Fin 256) (env : AddEnv)
        (qn st et : Int) (k : String),
      (goTrim req.Keyword = "" ∨ equalFold (goTrim req.Keyword) "none" = true) →
      ¬(goTrim req.Name = "") →
      addPromocodeQuantity req.Quantity = .ok qn →
      resolvePromocodeTimes req.StartTime req.EndTime now = .ok (st, et) →
      env.genFails = false →
      env.execInsertNew = none →
      generatePromocodeKeyword 8 false randomByte = .ok k →
      AddPromocode req now randomByte env =
        .ok k (computePromocodeActive (some ⟨0, "", 0, false, some st, some et⟩) now)
          qn (some st) (some et)) := by
  refine ⟨?_, ?_, ?_⟩
  · intro rb
    refine ⟨_, rfl, by simp, ?_⟩
    intro c hc
    have hc2 : c ∈ (List.range (Int.toNat 8)).map
        (fun i => promocodeCharset.getD ((rb i).val % promocodeCharset.length) 'A') := hc
    simp only [List.mem_map, List.mem_range] at hc2
    obtain ⟨i, _, hi⟩ := hc2
    rw [← hi]
    exact promocodeCharset_getD_mem _
  · intro req now rb env qn st et hKw hName hQty hTimes hGen hIns
    have hKwB : (goTrim req.Keyword = "" || equalFold (goTrim req.Keyword) "none") = true := by
      rcases hKw with h | h <;> simp [h]
    simp only [AddPromocode, hQty, hTimes, hGen, hIns, if_neg hName, hKwB, if_true,
      generatePromocodeKeyword]
    rfl
  · intro req now rb env qn st et k hKw hName hQty hTimes hGen hIns hgenOk
    have hKwB : (goTrim req.Keyword = "" || equalFold (goTrim req.Keyword) "none") = true := by
      rcases hKw with h | h <;> simp [h]
    simp only [AddPromocode, hQty, hTimes, hIns, if_neg hName, hKwB, if_true, hGen, hgenOk]

unseal Rat.add Rat.mul Rat.inv Rat.sub in
/-- C7 witness: the conflict answer and the generated-keyword success at
concrete createCode requests whose keyword triggers generation. -/
theorem C7_keywordGeneration_witness :
    AddPromocode ⟨"Welcome", "", .jsonNumber "100", none, .absent, .absent⟩ 0
      (fun _ => ⟨0, by decide⟩) ⟨some (.pq .uniqueViolation), none, none, false⟩ =
      .err ⟨409, some "Promocode keyword already exists", false⟩ ∧
    AddPromocode ⟨"Welcome", "nOnE", .jsonNumber "100", none, .absent, .absent⟩ 0
      (fun _ => ⟨0, by decide⟩) ⟨none, none, none, false⟩ =
      .ok "AAAAAAAA"
        (computePromocodeActive (some ⟨0, "", 0, false, some 0, some (0 + thirtyDays)⟩) 0)
        100 (some 0) (some (0 + thirtyDays)) := by
  constructor
  · exact C7_keywordGeneration.2.1
      ⟨"Welcome", "", .jsonNumber "100", none, .absent, .absent⟩ 0
      (fun _ => ⟨0, by decide⟩) ⟨some (.pq .uniqueViolation), none, none, false⟩
      100 0 (0 + thirtyDays) (Or.inl (by decide)) (by decide) (by decide) (by decide) rfl rfl
  · exact C7_keywordGeneration.2.2
      ⟨"Welcome", "nOnE", .jsonNumber "100", none, .absent, .absent⟩ 0
      (fun _ => ⟨0, by decide⟩) ⟨none, none, none, false⟩
      100 0 (0 + thirtyDays) "AAAAAAAA" (Or.inr (by decide)) (by decide) (by decide)
      (by decide) rfl rfl (by decide)

/-- The atomic credit rewrites exactly the rows of the credited user. -/
theorem find_updateBalanceAdd (bs : List (Int × ℚ)) (u : Int) (q : ℚ) :
    (updateBalanceAdd bs u q).find? (fun p => decide (p.1 = u)) =
      (bs.find? (fun p => decide (p.1 = u))).map (fun p => (p.1, p.2 + q)) := by
  induction bs with
  | nil => rfl
  | cons a t ih =>
    simp only [updateBalanceAdd, List.map_cons] at *
    by_cases ha : a.1 = u
    · rw [List.find?_cons_of_pos _ (by simp [ha]), List.find?_cons_of_pos _ (by simp [ha])]
      simp [ha]
    · rw [List.find?_cons_of_neg _ (by simp [ha]), List.find?_cons_of_neg _ (by simp [ha])]
      exact ih

/-- After the idempotent ensure and the atomic credit, the balance row of
the user reads its prior value (zero when absent) plus the credit. -/
theorem balanceLookup_after_credit (bs : List (Int × ℚ)) (u : Int) (q : ℚ) :
    balanceLookup (updateBalanceAdd (ensureBalanceInsert bs u) u q) u =
      some ((balanceLookup bs u).getD 0 + q) := by
  unfold balanceLookup ensureBalanceInsert
  cases hf : bs.find? (fun p => decide (p.1 = u)) with
  | some p =>
    have hp : p.1 = u := by
      have := List.find?_some hf
      simpa using this
    rw [find_updateBalanceAdd, hf]
    simp
  | none =>
    rw [find_updateBalanceAdd]
    rw [List.find?_append, hf]
    simp

/-- A successful ensure inside a live transaction is exactly the idempotent
insert-if-absent. -/
theorem ensureBalanceRecord_ok {s s1 : Db} {u : Int} {fault : Bool}
    (h : ensureBalanceRecord (some s) u fault = .ok s1) :
    s1 = { s with balances := ensureBalanceInsert s.balances u } := by
  unfold ensureBalanceRecord at h
  cases fault <;> simp_all

/-- A successful current-schema activation insert only appends the
activation row: balances are untouched. -/
theorem insertNewActivation_ok_balances {s s2 : Db} {c u n q : Int} {f : Option DbErr}
    (h : insertNewActivation s c u n q f = .ok s2) : s2.balances = s.balances := by
  unfold insertNewActivation at h
  split at h
  · simp at h
  · split at h
    · simp at h
    · split at h
      · simp at h
      · have h2 := Except.ok.inj h
        rw [← h2]

/-- A successful legacy activation insert only appends the activation row:
balances are untouched. -/
theorem insertLegacyActivation_ok_balances {s s2 : Db} {c u n : Int} {f : Option DbErr}
    (h : insertLegacyActivation s c u n f = .ok s2) : s2.balances = s.balances := by
  unfold insertLegacyActivation at h
  split at h
  · simp at h
  · split at h
    · simp at h
    · split at h
      · simp at h
      · have h2 := Except.ok.inj h
        rw [← h2]

/-- A successful Recording step leaves the balances of the transaction
untouched. -/
theorem recordActivation_ok_balances {s s2 : Db} {c u n q : Int} {fN fL : Option DbErr}
    (h : recordActivation s c u n q fN fL = .ok s2) : s2.balances = s.balances := by
  unfold recordActivation at h
  split at h
  · rename_i s2x heq
    rw [← Except.ok.inj h]
    exact insertNewActivation_ok_balances heq
  · split at h
    · split at h
      · rename_i s2x heq2
        rw [← Except.ok.inj h]
        exact insertLegacyActivation_ok_balances heq2
      · simp at h
    · split at h
      · rename_i s2x heq2
        rw [← Except.ok.inj h]
        exact insertLegacyActivation_ok_balances heq2
      · simp at h
    · simp at h
    · simp at h
  · simp at h

/-- A transaction body that reaches its success continuation has performed
exactly the ensure and the credit on the balances. -/
theorem activateTx_ok_balances {db s3 : Db} {now u : Int} {record : PromocodeRecord}
    {f : Faults} (h : activateTx db now u record f = .ok s3) :
    s3.balances = updateBalanceAdd (ensureBalanceInsert db.balances u) u record.Quantity := by
  unfold activateTx at h
  split at h
  · simp at h
  · split at h
    · simp at h
    · rename_i s1 heq1
      split at h
      · simp at h
      · have hs1 := ensureBalanceRecord_ok heq1
        have hb := recordActivation_ok_balances h
        rw [hb, hs1]

/-- C2: every redeem request whose response is not the success body and not
the post-commit read-back failure leaves the store exactly as it was — the
transaction rolled back in full, no partial credit, no orphan activation
row — and the deferred rollback is a no-op on a committed transaction. -/
theorem C2_rollbackOnFailure :
    (∀ (db : Db) (now userId : Int) (rawKeyword : String) (f : Faults)
        (out : ActivateOut) (db2 : Db),
      ActivatePromocode db now userId rawKeyword f = (out, db2) →
      (∀ b, out ≠ .ok b) →
      out ≠ .err ⟨500, some "Failed to fetch updated balance", true⟩ →
      db2 = db)
    ∧ (∀ base s : Db, deferredRollback base (.committed s) = s) := by
  constructor
  · intro db now userId kw f out db2 hrun hOk hRb
    simp only [ActivatePromocode] at hrun
    repeat' split at hrun
    all_goals
      first
        | exact (congrArg Prod.snd hrun).symm
        | exact absurd (congrArg Prod.fst hrun).symm hRb
        | exact absurd (congrArg Prod.fst hrun).symm (hOk _)
  · intro base s
    rfl

/-- C3: every redeem request that answers with the success body reports a
balance equal to the balance read before the request (zero when the row was
absent) plus the quantity of the resolved code, and the committed store
holds a balance row with exactly that value. -/
theorem C3_balanceCredit :
    ∀ (db : Db) (now userId : Int) (rawKeyword : String) (f : Faults) (b : ℚ) (db2 : Db),
      ActivatePromocode db now userId rawKeyword f = (.ok b, db2) →
      ∃ record, findPromocodeByKeyword db now (goTrim rawKeyword) = .ok record ∧
        b = (balanceLookup db.balances userId).getD 0 + record.Quantity ∧
        balanceLookup db2.balances userId = some b := by
  intro db now userId kw f b db2 hrun
  simp only [ActivatePromocode] at hrun
  repeat' split at hrun
  all_goals try exact absurd (congrArg Prod.fst hrun) fun hh => ActivateOut.noConfusion hh
  rename_i hkw xA recd heqFind hAct hBegin xB s3 heqTx hCommit hRead xC newBalance heqBal
  have hb : newBalance = b := ActivateOut.ok.inj (congrArg Prod.fst hrun)
  have hdb2 : deferredRollback db (.committed s3) = db2 := congrArg Prod.snd hrun
  refine ⟨recd, heqFind, ?_, ?_⟩
  · have h3 := activateTx_ok_balances heqTx
    rw [h3, balanceLookup_after_credit] at heqBal
    have h5 := Option.some.inj heqBal
    rw [← hb, ← h5]
  · rw [← hdb2]
    rw [hb] at heqBal
    exact heqBal

/-- C2 witness: the balance-ensure failure inside the transaction leaves
the concrete store untouched. -/
theorem C2_rollbackOnFailure_witness :
    (ActivatePromocode freshDb 0 42 "WELCOME" ensureFaults).2 = freshDb := by
  have h1 : (ActivatePromocode freshDb 0 42 "WELCOME" ensureFaults).1 =
      .err ⟨500, some "Failed to prepare balance record", true⟩ := by decide
  refine C2_rollbackOnFailure.1 freshDb 0 42 "WELCOME" ensureFaults
    (ActivatePromocode freshDb 0 42 "WELCOME" ensureFaults).1
    (ActivatePromocode freshDb 0 42 "WELCOME" ensureFaults).2 rfl ?_ ?_
  · intro b
    rw [h1]
    simp
  · rw [h1]
    simp

unseal Rat.add Rat.mul Rat.inv Rat.sub in
/-- C3 witness: the concrete successful redemption of WELCOME (quantity
100) by user 42 with prior balance 7 answers 107 and commits 107. -/
theorem C3_balanceCredit_witness :
    ∃ record, findPromocodeByKeyword freshDb 0 (goTrim "WELCOME") = .ok record ∧
      (107 : ℚ) = (balanceLookup freshDb.balances 42).getD 0 + record.Quantity ∧
      balanceLookup freshDbAfter.balances 42 = some 107 := by
  exact C3_balanceCredit freshDb 0 42 "WELCOME" noFaults 107 freshDbAfter (by decide)

/-- Every error response of the prior-redemption check uses the fixed
vocabulary and carries details only with status 500. -/
theorem checkPriorActivation_err {s : Db} {c u : Int} {fN fL : Option DbErr} {r : Resp}
    (h : checkPriorActivation s c u fN fL = .error r) :
    r.errMsg.getD "" ∈ errorVocabulary ∧ (r.details = true → r.status = 500) := by
  unfold checkPriorActivation at h
  repeat' split at h
  all_goals first
    | (rw [← h]; decide)
    | (rw [← Except.error.inj h]; decide)
    | simp at h

/-- Every error response of the Recording step uses the fixed vocabulary
and carries details only with status 500. -/
theorem recordActivation_err {s : Db} {c u n q : Int} {fN fL : Option DbErr} {r : Resp}
    (h : recordActivation s c u n q fN fL = .error r) :
    r.errMsg.getD "" ∈ errorVocabulary ∧ (r.details = true → r.status = 500) := by
  unfold recordActivation at h
  repeat' split at h
  all_goals first
    | (rw [← h]; decide)
    | (rw [← Except.error.inj h]; decide)
    | simp at h

/-- Every error response of the transaction body uses the fixed vocabulary
and carries details only with status 500. -/
theorem activateTx_err {db : Db} {now u : Int} {record : PromocodeRecord} {f : Faults}
    {r : Resp} (h : activateTx db now u record f = .error r) :
    r.errMsg.getD "" ∈ errorVocabulary ∧ (r.details = true → r.status = 500) := by
  unfold activateTx at h
  split at h
  · rename_i r0 heq
    rw [← Except.error.inj h]
    exact checkPriorActivation_err heq
  · split at h
    · rw [← Except.error.inj h]
      decide
    · split at h
      · rw [← Except.error.inj h]
        decide
      · exact recordActivation_err h

/-- Every error response of the quantity pipeline uses the fixed vocabulary
and carries details only on the parse-failure 400. -/
theorem addPromocodeQuantity_err {raw : RawQuantity} {r : Resp}
    (h : addPromocodeQuantity raw = .error r) :
    r.errMsg.getD "" ∈ errorVocabulary ∧
      (r.details = true → r.status = 500 ∨ r.errMsg = some "Invalid quantity") := by
  unfold addPromocodeQuantity validateQuantityValue at h
  repeat' split at h
  all_goals first
    | (rw [← h]; decide)
    | (rw [← Except.error.inj h]; decide)
    | (rw [ite_eq_iff] at h
       rcases h with ⟨hc2, h2⟩ | ⟨hc2, h2⟩
       · rw [← Except.error.inj h2]
         decide
       · simp at h2)
    | simp at h

/-- C9 counterexample: the 401 authentication response carries a details
field although its status is not 500, and the 400 invalid-quantity response
of createCode carries details as well — details are not reserved to
internal failures. -/
theorem C9_counterexample :
    (unauthorizedResponse .missingToken).details = true ∧
    (unauthorizedResponse .missingToken).status = 401 ∧
    ¬(unauthorizedResponse .missingToken).status = 500 ∧
    AddPromocode ⟨"Welcome", "K", .jsonNumber "oops", none, .absent, .absent⟩ 0
      (fun _ => ⟨0, by decide⟩) ⟨none, none, none, false⟩ =
      .err ⟨400, some "Invalid quantity", true⟩ := by
  exact ⟨rfl, rfl, by decide, by decide⟩

/-- C9 amended: every error response of the modelled handlers draws its
error field from the fixed vocabulary; the redeem endpoint attaches details
exactly to its 500 responses; createCode attaches details to its 500
responses and to the 400 responses that wrap a parse failure of the
quantity or the time fields; and the 401 authentication responses always
attach details. -/
theorem C9_errorResponseShape :
    (∀ (db : Db) (now userId : Int) (kw : String) (f : Faults) (r : Resp),
      (ActivatePromocode db now userId kw f).1 = .err r →
      r.errMsg.getD "" ∈ errorVocabulary ∧ (r.details = true → r.status = 500))
    ∧ (∀ (req : AddInput) (now : Int) (randomByte : Nat → Fin 256) (env : AddEnv)
        (r : Resp),
      AddPromocode req now randomByte env = .err r →
      r.errMsg.getD "" ∈ errorVocabulary ∧
        (r.details = true → r.status = 500 ∨ r.errMsg = some "Invalid quantity" ∨
          r.errMsg = some "Invalid start or end time"))
    ∧ (∀ e : AuthErr, (unauthorizedResponse e).status = 401 ∧
        (unauthorizedResponse e).details = true ∧
        (unauthorizedResponse e).errMsg.getD "" ∈ errorVocabulary) := by
  refine ⟨?_, ?_, ?_⟩
  · intro db now userId kw f r h
    simp only [ActivatePromocode] at h
    repeat' split at h
    all_goals first
      | (rw [← ActivateOut.err.inj h]
         first
           | decide
           | exact activateTx_err (by assumption))
      | simp at h
  · intro req now rb env r h
    simp only [AddPromocode] at h
    repeat' split at h
    all_goals first
      | (rw [← AddOut.err.inj h]
         first
           | decide
           | (rename_i heqk
              split at heqk
              · split at heqk
                · rw [← Except.error.inj heqk]
                  decide
                · simp at heqk
              · simp at heqk)
           | (rcases addPromocodeQuantity_err (by assumption) with ⟨hv, hd⟩
              exact ⟨hv, fun hdet => (hd hdet).elim (fun hs => Or.inl hs)
                (fun hm => Or.inr (Or.inl hm))⟩))
      | simp at h
  · intro e
    cases e <;> exact ⟨rfl, rfl, by decide⟩

/-- C9 witness: the amended detail policy applied to the concrete 500
fetch-failure response of the redeem endpoint. -/
theorem C9_errorResponseShape_witness :
    ((⟨500, some "Failed to fetch promocode", true⟩ : Resp).errMsg.getD "" ∈
      errorVocabulary) ∧
    ((⟨500, some "Failed to fetch promocode", true⟩ : Resp).details = true →
      (⟨500, some "Failed to fetch promocode", true⟩ : Resp).status = 500) := by
  exact C9_errorResponseShape.1 migratedDb 0 42 "X" noFaults
    ⟨500, some "Failed to fetch promocode", true⟩ (by decide)

unseal Rat.add Rat.mul Rat.inv Rat.sub in
/-- C6 witness: the non-positive rejection at the concrete value minus
three and the non-integral rejection at the concrete value ten and a half. -/
theorem C6_quantityValidation_witness :
    validateQuantityValue (.num (-3)) =
      .error ⟨400, some "Quantity must be greater than zero", false⟩ ∧
    validateQuantityValue (.num (21/2)) =
      .error ⟨400, some "Quantity must be an integer value", false⟩ := by
  constructor
  · exact C6_quantityValidation.2.2.2.1 (-3) (by norm_num)
  · refine C6_quantityValidation.2.2.2.2.2.2.2.2.2 (21/2) (by norm_num) ?_
    intro n
    have h1 : |((21:ℚ)/2) - (n:ℚ)| ≥ 1/2 := by
      rcases le_or_lt (n : ℤ) 10 with hn | hn
      · have h2 : ((n:ℚ)) ≤ 10 := by exact_mod_cast hn
        rw [abs_of_nonneg (by linarith)]
        linarith
      · have h2 : (11:ℚ) ≤ (n:ℚ) := by exact_mod_cast hn
        rw [abs_of_nonpos (by linarith)]
        linarith
    linarith

end Speak
